import Mathlib

/-!
Verification of the Sprint-Beacon start-gate firmware
(`src/firmware/stargate/Tag_Beacon_BLE_Pairing_UWB_Only.ino`).

The firmware keeps its state in free-standing globals and mutates them from
the main `loop`, from the BLE characteristic callbacks, and from `pollUWB`.
We embed those globals as one structure `Fw` and each piece of code as a
pure step function on `Fw`.  Machine integers are embedded as `Nat`/`Int`
with explicit reductions modulo 2^8 / 2^16 / 2^32 where the C code performs
unsigned wraparound or narrowing casts.
-/

/-- Power state enum, firmware lines 109-116. -/
inductive PowerState : Type where
  | DEEP_SLEEP
  | CHARGING
  | AWAKE_STANDBY
  | AWAKE_RUNNING
  | PAIRING_MODE
  | OTA_MODE
deriving DecidableEq, Repr

/-- Detection and radio constants, firmware lines 128-137. -/
def MIN_ABS_CM : Nat := 1
def MIN_DROP_CM : Nat := 10
def BASELINE_MAX_CM : Nat := 183
def BELOW_CONSEC_REQUIRED : Nat := 2
def ABOVE_CONSEC_REQUIRED : Nat := 2
def TRIGGER_HOLD_MS : Nat := 500

/-- The firmware's mutable globals that the verified claims touch.
`baseline_cm` is a `uint16_t`, the two consecutive-sample counters are
`uint8_t`, timestamps are `uint32_t` milliseconds, `startTimestamp` is an
`int32_t` with -1 meaning "no pending start event" (firmware lines 140-165).
The NVS keys are modelled as `Option` values (`none` = key absent). -/
structure Fw : Type where
  baseline_cm : Nat
  belowConsec : Nat
  aboveConsec : Nat
  startArmed : Bool
  lastTriggerDetectionMs : Nat
  prevStartTriggered : Bool
  powerState : PowerState
  startTimestamp : Int
  lastSend : Nat
  uwb_distance_cm : Int
  batteryPercent : Nat
  MY_UWB_ADDRESS : List Char
  ANCHOR_UWB_NETWORK : List Char
  ANCHOR_UWB_ADDRESS : List Char
  isPaired : Bool
  nvs_uwb_network : Option (List Char)
  nvs_anchor_addr : Option (List Char)
  nvs_paired : Bool
  chStatusValue : List Char
  rxLine : List Char
deriving Repr, DecidableEq

/-- Wrapping `uint32_t` subtraction `a - b`, as in `millis() - start`. -/
def wrapSub32 (a b : Nat) : Nat :=
  (a % 4294967296 + 4294967296 - b % 4294967296) % 4294967296

/-- Reinterpret a `uint32_t` bit pattern as an `int32_t` value
(the cast in `startAge = (int32_t)(now - (uint32_t)startTimestamp)`). -/
def int32ofNat (n : Nat) : Int :=
  if n % 4294967296 < 2147483648 then ((n % 4294967296 : Nat) : Int)
  else ((n % 4294967296 : Nat) : Int) - 4294967296

/-- Cast an `int32_t` value to `uint32_t` (the cast `(uint32_t)startTimestamp`). -/
def uint32ofInt (i : Int) : Nat := (i % 4294967296).toNat

/-- The sample preprocessing of firmware lines 1272-1273:
`uint16_t cur_cm = (uint16_t)tof_cm;` followed by the clamp
`if (cur_cm > BASELINE_MAX_CM) cur_cm = BASELINE_MAX_CM;`. -/
def clampCm (v : Int) : Nat :=
  let c := v.toNat % 65536
  if BASELINE_MAX_CM < c then BASELINE_MAX_CM else c

/-- Baseline after the learning step of lines 1275-1278
(`if (baseline_cm == 0) baseline_cm = cur_cm;`). -/
def baselineOf (s : Fw) (v : Int) : Nat :=
  if s.baseline_cm = 0 then clampCm v else s.baseline_cm

/-- The drop of line 1280: `(baseline_cm > cur_cm) ? (baseline_cm - cur_cm) : 0`,
which is exactly truncated `Nat` subtraction. -/
def dropOf (s : Fw) (v : Int) : Nat := baselineOf s v - clampCm v

/-- One pass of the start-detection block, firmware lines 1269-1323.
The input is the current `millis()` value and the (possibly stale) `tof_cm`
global; invalid samples (`tof_cm <= 0`) leave the state unchanged.
Returns the new state and the iteration-local `startTriggered` flag. -/
def tofDetect (now : Nat) (tofCm : Int) (s : Fw) : Fw × Bool :=
  if tofCm ≤ 0 then (s, false)
  else
    let cur := clampCm tofCm
    let b := baselineOf s tofCm
    let drop := b - cur
    if MIN_ABS_CM ≤ cur ∧ MIN_DROP_CM ≤ drop then
      if s.startArmed then
        -- lines 1284-1295: belowConsec++ (uint8), record drop time, maybe trigger
        let below := (s.belowConsec + 1) % 256
        if BELOW_CONSEC_REQUIRED ≤ below then
          ({ s with baseline_cm := b, belowConsec := below,
                    lastTriggerDetectionMs := now, startArmed := false,
                    aboveConsec := 0, powerState := .AWAKE_RUNNING }, true)
        else
          ({ s with baseline_cm := b, belowConsec := below,
                    lastTriggerDetectionMs := now }, false)
      else
        -- lines 1296-1298: disarmed drop keeps refreshing the hold window
        ({ s with baseline_cm := b, lastTriggerDetectionMs := now }, false)
    else
      -- line 1300: decay, not reset
      let below := if 0 < s.belowConsec then s.belowConsec - 1 else s.belowConsec
      if s.startArmed then
        ({ s with baseline_cm := b, belowConsec := below }, false)
      else
        if wrapSub32 now s.lastTriggerDetectionMs < TRIGGER_HOLD_MS then
          -- line 1319: clear sample inside the hold window resets aboveConsec
          ({ s with baseline_cm := b, belowConsec := below, aboveConsec := 0 }, false)
        else
          let above := (s.aboveConsec + 1) % 256
          if ABOVE_CONSEC_REQUIRED ≤ above then
            -- lines 1308-1316: re-arm, re-learn baseline, leave RUNNING
            ({ s with baseline_cm := cur, belowConsec := 0, aboveConsec := above,
                      startArmed := true,
                      powerState := if s.powerState = .AWAKE_RUNNING
                                    then .AWAKE_STANDBY else s.powerState }, false)
          else
            ({ s with baseline_cm := b, belowConsec := below, aboveConsec := above }, false)

/-- One loop iteration's detection plus the start-edge block of lines
1326-1342: on a `startTriggered && !prevStartTriggered` edge the pending
`startTimestamp` is set to `now` (an `int32_t` receiving a `uint32_t`),
and `prevStartTriggered` is updated every iteration.
Returns the new state and whether a start edge fired. -/
def detStep (now : Nat) (tofCm : Int) (s : Fw) : Fw × Bool :=
  let r := tofDetect now tofCm s
  let edge := r.2 && !s.prevStartTriggered
  let s2 := if edge then { r.1 with startTimestamp := int32ofNat now } else r.1
  ({ s2 with prevStartTriggered := r.2 }, edge)

/-- Run the detection step over a list of (millis, tof_cm) iterations. -/
def detRun (s : Fw) : List (Nat × Int) → Fw
  | [] => s
  | p :: rest => detRun (detStep p.1 p.2 s).1 rest

/-- Number of start-event edges fired along a trace. -/
def edgeCount (s : Fw) : List (Nat × Int) → Nat
  | [] => 0
  | p :: rest =>
      (if (detStep p.1 p.2 s).2 then 1 else 0) + edgeCount (detStep p.1 p.2 s).1 rest

/-- Number of re-arms (disarmed before the step, armed after it) along a trace. -/
def rearmCount (s : Fw) : List (Nat × Int) → Nat
  | [] => 0
  | p :: rest =>
      (if !s.startArmed && (detStep p.1 p.2 s).1.startArmed then 1 else 0)
        + rearmCount (detStep p.1 p.2 s).1 rest

/-- A sample that takes the drop branch of line 1283:
valid (`tof_cm > 0`), `cur_cm >= MIN_ABS_CM` and `drop_cm >= MIN_DROP_CM`. -/
def isDropSample (s : Fw) (v : Int) : Bool :=
  0 < v && MIN_ABS_CM ≤ clampCm v && MIN_DROP_CM ≤ dropOf s v

/-- A valid clear sample: `tof_cm > 0` with drop below the threshold. -/
def isClearSample (s : Fw) (v : Int) : Bool :=
  0 < v && dropOf s v < MIN_DROP_CM

/-- Every sample of the trace takes the drop branch, judged against the
evolving detector state. -/
def dropChain (s : Fw) : List (Nat × Int) → Bool
  | [] => true
  | p :: rest => isDropSample s p.2 && dropChain (detStep p.1 p.2 s).1 rest

/-- Every sample of the trace is a valid clear sample, judged against the
evolving detector state (the baseline re-learns on re-arm). -/
def clearChain (s : Fw) : List (Nat × Int) → Bool
  | [] => true
  | p :: rest => isClearSample s p.2 && clearChain (detStep p.1 p.2 s).1 rest

/-- Whether a trace ever contains two consecutive valid clear samples,
judged against the evolving detector state. -/
def twoConsecClear (s : Fw) : List (Nat × Int) → Bool
  | [] => false
  | [_] => false
  | p :: q :: rest =>
      (isClearSample s p.2 && isClearSample (detStep p.1 p.2 s).1 q.2)
        || twoConsecClear (detStep p.1 p.2 s).1 (q :: rest)

/-! ### Basic arithmetic facts about the embedding -/

lemma wrapSub32_eq {a b : Nat} (h1 : b ≤ a) (h2 : a - b < 4294967296) :
    wrapSub32 a b = a - b := by
  unfold wrapSub32; omega

lemma clampCm_le (v : Int) : clampCm v ≤ BASELINE_MAX_CM := by
  simp only [clampCm, BASELINE_MAX_CM]
  split <;> omega

/-! ### Characterization of each branch of the detection step -/

lemma detStep_invalid (now : Nat) (v : Int) (s : Fw) (hv : v ≤ 0) :
    detStep now v s = ({ s with prevStartTriggered := false }, false) := by
  simp [detStep, tofDetect, hv]

lemma detStep_drop_armed_one (now : Nat) (v : Int) (s : Fw) (hv : 0 < v)
    (harm : s.startArmed = true)
    (hcur : MIN_ABS_CM ≤ clampCm v) (hdrop : MIN_DROP_CM ≤ dropOf s v)
    (hbelow : s.belowConsec = 0) :
    detStep now v s =
      ({ s with baseline_cm := baselineOf s v, belowConsec := 1,
                lastTriggerDetectionMs := now, prevStartTriggered := false }, false) := by
  have hv' : ¬ v ≤ 0 := by omega
  unfold detStep tofDetect dropOf at *
  simp [hv', harm, hbelow, hcur, hdrop, BELOW_CONSEC_REQUIRED]

lemma detStep_drop_armed_trigger (now : Nat) (v : Int) (s : Fw) (hv : 0 < v)
    (harm : s.startArmed = true)
    (hcur : MIN_ABS_CM ≤ clampCm v) (hdrop : MIN_DROP_CM ≤ dropOf s v)
    (hbelow : s.belowConsec = 1) (hprev : s.prevStartTriggered = false) :
    detStep now v s =
      ({ s with baseline_cm := baselineOf s v, belowConsec := 2, aboveConsec := 0,
                startArmed := false, lastTriggerDetectionMs := now,
                powerState := .AWAKE_RUNNING, prevStartTriggered := true,
                startTimestamp := int32ofNat now }, true) := by
  have hv' : ¬ v ≤ 0 := by omega
  unfold detStep tofDetect dropOf at *
  simp [hv', harm, hbelow, hcur, hdrop, hprev, BELOW_CONSEC_REQUIRED]

lemma detStep_drop_disarmed (now : Nat) (v : Int) (s : Fw) (hv : 0 < v)
    (harm : s.startArmed = false)
    (hcur : MIN_ABS_CM ≤ clampCm v) (hdrop : MIN_DROP_CM ≤ dropOf s v) :
    detStep now v s =
      ({ s with baseline_cm := baselineOf s v,
                lastTriggerDetectionMs := now, prevStartTriggered := false }, false) := by
  have hv' : ¬ v ≤ 0 := by omega
  unfold detStep tofDetect dropOf at *
  simp [hv', harm, hcur, hdrop]

lemma detStep_clear_armed (now : Nat) (v : Int) (s : Fw) (hv : 0 < v)
    (harm : s.startArmed = true) (hdrop : dropOf s v < MIN_DROP_CM) :
    detStep now v s =
      ({ s with baseline_cm := baselineOf s v,
                belowConsec := s.belowConsec - 1, prevStartTriggered := false }, false) := by
  have hv' : ¬ v ≤ 0 := by omega
  have hcond : ¬ (MIN_ABS_CM ≤ clampCm v ∧ MIN_DROP_CM ≤ baselineOf s v - clampCm v) := by
    unfold dropOf at hdrop; omega
  unfold detStep tofDetect at *
  simp only [hv', if_false, harm, if_true, hcond, ite_true, ite_false]
  split <;> simp_all

lemma detStep_clear_hold (now : Nat) (v : Int) (s : Fw) (hv : 0 < v)
    (harm : s.startArmed = false) (hdrop : dropOf s v < MIN_DROP_CM)
    (hwin : wrapSub32 now s.lastTriggerDetectionMs < TRIGGER_HOLD_MS) :
    detStep now v s =
      ({ s with baseline_cm := baselineOf s v,
                belowConsec := s.belowConsec - 1, aboveConsec := 0,
                prevStartTriggered := false }, false) := by
  have hv' : ¬ v ≤ 0 := by omega
  have hcond : ¬ (MIN_ABS_CM ≤ clampCm v ∧ MIN_DROP_CM ≤ baselineOf s v - clampCm v) := by
    unfold dropOf at hdrop; omega
  unfold detStep tofDetect at *
  simp only [hv', if_false, harm, if_true, hcond, ite_true, ite_false, hwin]
  split <;> simp_all

lemma detStep_clear_count (now : Nat) (v : Int) (s : Fw) (hv : 0 < v)
    (harm : s.startArmed = false) (hdrop : dropOf s v < MIN_DROP_CM)
    (hwin : ¬ wrapSub32 now s.lastTriggerDetectionMs < TRIGGER_HOLD_MS)
    (habove : s.aboveConsec = 0) :
    detStep now v s =
      ({ s with baseline_cm := baselineOf s v,
                belowConsec := s.belowConsec - 1, aboveConsec := 1,
                prevStartTriggered := false }, false) := by
  have hv' : ¬ v ≤ 0 := by omega
  have hcond : ¬ (MIN_ABS_CM ≤ clampCm v ∧ MIN_DROP_CM ≤ baselineOf s v - clampCm v) := by
    unfold dropOf at hdrop; omega
  unfold detStep tofDetect at *
  simp only [hv', if_false, harm, if_true, hcond, ite_true, ite_false, hwin, habove,
    ABOVE_CONSEC_REQUIRED]
  split <;> simp_all

lemma detStep_clear_rearm (now : Nat) (v : Int) (s : Fw) (hv : 0 < v)
    (harm : s.startArmed = false) (hdrop : dropOf s v < MIN_DROP_CM)
    (hwin : ¬ wrapSub32 now s.lastTriggerDetectionMs < TRIGGER_HOLD_MS)
    (habove : s.aboveConsec = 1) :
    detStep now v s =
      ({ s with baseline_cm := clampCm v, belowConsec := 0, aboveConsec := 2,
                startArmed := true,
                powerState := if s.powerState = .AWAKE_RUNNING
                              then .AWAKE_STANDBY else s.powerState,
                prevStartTriggered := false }, false) := by
  have hv' : ¬ v ≤ 0 := by omega
  have hcond : ¬ (MIN_ABS_CM ≤ clampCm v ∧ MIN_DROP_CM ≤ baselineOf s v - clampCm v) := by
    unfold dropOf at hdrop; omega
  unfold detStep tofDetect at *
  simp [hv', harm, hcond, hwin, habove, ABOVE_CONSEC_REQUIRED]

/-! ### Trace bookkeeping lemmas -/

lemma detRun_append (l1 l2 : List (Nat × Int)) : ∀ s : Fw,
    detRun s (l1 ++ l2) = detRun (detRun s l1) l2 := by
  induction l1 with
  | nil => intro s; rfl
  | cons p rest ih => intro s; simp only [List.cons_append, List.append_eq, detRun]; exact ih _

lemma edgeCount_append (l1 l2 : List (Nat × Int)) : ∀ s : Fw,
    edgeCount s (l1 ++ l2) = edgeCount s l1 + edgeCount (detRun s l1) l2 := by
  induction l1 with
  | nil => intro s; simp [edgeCount, detRun]
  | cons p rest ih =>
      intro s
      simp only [List.cons_append, List.append_eq, edgeCount, detRun, ih]
      omega

lemma rearmCount_append (l1 l2 : List (Nat × Int)) : ∀ s : Fw,
    rearmCount s (l1 ++ l2) = rearmCount s l1 + rearmCount (detRun s l1) l2 := by
  induction l1 with
  | nil => intro s; simp [rearmCount, detRun]
  | cons p rest ih =>
      intro s
      simp only [List.cons_append, List.append_eq, rearmCount, detRun, ih]
      omega

/-- Running the detector while disarmed over drop samples only refreshes the
hold window: no event, no re-arm, counters and baseline untouched. -/
lemma dropPhase_disarmed (l : List (Nat × Int)) : ∀ s : Fw,
    s.startArmed = false → s.baseline_cm ≠ 0 → dropChain s l = true →
    (detRun s l).startArmed = false ∧
    (detRun s l).belowConsec = s.belowConsec ∧
    (detRun s l).aboveConsec = s.aboveConsec ∧
    (detRun s l).baseline_cm = s.baseline_cm ∧
    (detRun s l).powerState = s.powerState ∧
    (detRun s l).startTimestamp = s.startTimestamp ∧
    edgeCount s l = 0 ∧ rearmCount s l = 0 := by
  induction l with
  | nil => intro s h1 h2 _; simp [detRun, edgeCount, rearmCount, h1]
  | cons p rest ih =>
      intro s h1 h2 hchain
      simp only [dropChain, isDropSample, Bool.and_eq_true, decide_eq_true_eq] at hchain
      obtain ⟨⟨⟨hv, hcur⟩, hdrop⟩, hrest⟩ := hchain
      have hbl : baselineOf s p.2 = s.baseline_cm := by unfold baselineOf; simp [h2]
      have hstep := detStep_drop_disarmed p.1 p.2 s hv h1 hcur hdrop
      simp only [detRun, edgeCount, rearmCount, hstep, hbl]
      have := ih { s with baseline_cm := s.baseline_cm,
                          lastTriggerDetectionMs := p.1, prevStartTriggered := false }
        (by simp [h1]) (by simpa using h2) (by rw [hstep] at hrest; simpa [hbl] using hrest)
      simp_all [h1]

/-- Running the detector while armed with `belowConsec = 0` over valid clear
samples keeps it armed with `belowConsec = 0`: no event, no re-arm. -/
lemma clearPhase_armed (l : List (Nat × Int)) : ∀ s : Fw,
    s.startArmed = true → s.belowConsec = 0 → clearChain s l = true →
    (detRun s l).startArmed = true ∧ edgeCount s l = 0 ∧ rearmCount s l = 0 := by
  induction l with
  | nil => intro s h1 _ _; simp [detRun, edgeCount, rearmCount, h1]
  | cons p rest ih =>
      intro s h1 h2 hchain
      simp only [clearChain, isClearSample, Bool.and_eq_true, decide_eq_true_eq] at hchain
      obtain ⟨⟨hv, hdrop⟩, hrest⟩ := hchain
      have hstep := detStep_clear_armed p.1 p.2 s hv h1 hdrop
      simp only [detRun, edgeCount, rearmCount, hstep]
      have := ih { s with baseline_cm := baselineOf s p.2,
                          belowConsec := s.belowConsec - 1, prevStartTriggered := false }
        (by simp [h1]) (by simp [h2]) (by rw [hstep] at hrest; simpa using hrest)
      simp_all [h1]
/-- Full post-trigger clear phase from any disarmed state with
`aboveConsec = 0`: valid clear samples, all at least `TRIGGER_HOLD_MS`
after the last recorded drop, produce no event and exactly one re-arm. -/
lemma clearPhase_full (u1 u2 : Nat) (w1 w2 : Int) (cs' : List (Nat × Int))
    (smid : Fw)
    (h1 : smid.startArmed = false) (h3 : smid.aboveConsec = 0)
    (hcs : clearChain smid ((u1, w1) :: (u2, w2) :: cs') = true)
    (htime : ∀ p ∈ (u1, w1) :: (u2, w2) :: cs',
      smid.lastTriggerDetectionMs + TRIGGER_HOLD_MS ≤ p.1 ∧
      p.1 < smid.lastTriggerDetectionMs + 4294967296) :
    edgeCount smid ((u1, w1) :: (u2, w2) :: cs') = 0 ∧
    rearmCount smid ((u1, w1) :: (u2, w2) :: cs') = 1 := by
  simp only [clearChain, isClearSample, Bool.and_eq_true, decide_eq_true_eq] at hcs
  obtain ⟨⟨hw1, hd1⟩, ⟨hw2, hd2⟩, hcs'⟩ := hcs
  have ht1 := htime (u1, w1) (by simp)
  have ht2 := htime (u2, w2) (by simp)
  have hwin1 : ¬ wrapSub32 u1 smid.lastTriggerDetectionMs < TRIGGER_HOLD_MS := by
    rw [wrapSub32_eq (by unfold TRIGGER_HOLD_MS at ht1; omega) (by omega)]
    unfold TRIGGER_HOLD_MS at ht1 ⊢; omega
  have e3 : detStep u1 w1 smid =
      ({ smid with baseline_cm := baselineOf smid w1,
                   belowConsec := smid.belowConsec - 1, aboveConsec := 1,
                   prevStartTriggered := false }, false) :=
    detStep_clear_count u1 w1 smid hw1 h1 hd1 hwin1 h3
  rw [e3] at hd2 hcs'
  have hwin2 : ¬ wrapSub32 u2 smid.lastTriggerDetectionMs < TRIGGER_HOLD_MS := by
    rw [wrapSub32_eq (by unfold TRIGGER_HOLD_MS at ht2; omega) (by omega)]
    unfold TRIGGER_HOLD_MS at ht2 ⊢; omega
  have e4 : detStep u2 w2
      { smid with baseline_cm := baselineOf smid w1,
                  belowConsec := smid.belowConsec - 1, aboveConsec := 1,
                  prevStartTriggered := false } =
      ({ smid with baseline_cm := clampCm w2, belowConsec := 0, aboveConsec := 2,
                   startArmed := true,
                   powerState := (if smid.powerState = .AWAKE_RUNNING
                                  then .AWAKE_STANDBY else smid.powerState),
                   prevStartTriggered := false }, false) :=
    detStep_clear_rearm u2 w2
      { smid with baseline_cm := baselineOf smid w1,
                  belowConsec := smid.belowConsec - 1, aboveConsec := 1,
                  prevStartTriggered := false } hw2 h1 hd2 hwin2 rfl
  rw [e4] at hcs'
  have hC := clearPhase_armed cs'
    { smid with baseline_cm := clampCm w2, belowConsec := 0, aboveConsec := 2,
                startArmed := true,
                powerState := (if smid.powerState = .AWAKE_RUNNING
                               then .AWAKE_STANDBY else smid.powerState),
                prevStartTriggered := false } rfl rfl hcs'
  obtain ⟨hC1, hC2, hC3⟩ := hC
  refine ⟨?_, ?_⟩
  · simp only [edgeCount]
    rw [e3, e4]
    simpa using hC2
  · simp only [rearmCount]
    rw [e3, e4]
    simp [h1, hC3]

/-- The drop phase from a freshly armed detector with a learned baseline:
two or more consecutive drop samples fire exactly one start edge, no re-arm,
and leave the detector disarmed with `aboveConsec = 0` and an unchanged,
nonzero baseline. -/
lemma dropPhase_armed (t1 t2 : Nat) (v1 v2 : Int) (ds : List (Nat × Int))
    (s0 : Fw)
    (harm : s0.startArmed = true) (hbelow : s0.belowConsec = 0)
    (hbase : 0 < s0.baseline_cm)
    (hds : dropChain s0 ((t1, v1) :: (t2, v2) :: ds) = true) :
    edgeCount s0 ((t1, v1) :: (t2, v2) :: ds) = 1 ∧
    rearmCount s0 ((t1, v1) :: (t2, v2) :: ds) = 0 ∧
    (detRun s0 ((t1, v1) :: (t2, v2) :: ds)).startArmed = false ∧
    (detRun s0 ((t1, v1) :: (t2, v2) :: ds)).aboveConsec = 0 := by
  simp only [dropChain, isDropSample, Bool.and_eq_true, decide_eq_true_eq] at hds
  obtain ⟨⟨⟨hv1, hcur1⟩, hdrop1⟩, ⟨⟨hv2, hcur2⟩, hdrop2⟩, hds3⟩ := hds
  have hb0 : s0.baseline_cm ≠ 0 := by omega
  have hbl1 : baselineOf s0 v1 = s0.baseline_cm := by
    unfold baselineOf; rw [if_neg hb0]
  have e1 : detStep t1 v1 s0 =
      ({ s0 with baseline_cm := s0.baseline_cm, belowConsec := 1,
                 lastTriggerDetectionMs := t1, prevStartTriggered := false }, false) := by
    rw [detStep_drop_armed_one t1 v1 s0 hv1 harm hcur1 hdrop1 hbelow, hbl1]
  rw [e1] at hdrop2 hds3
  have hbl2 : baselineOf
      { s0 with baseline_cm := s0.baseline_cm, belowConsec := 1,
                lastTriggerDetectionMs := t1, prevStartTriggered := false } v2
      = s0.baseline_cm := by
    unfold baselineOf; rw [if_neg hb0]
  have e2 : detStep t2 v2
      { s0 with baseline_cm := s0.baseline_cm, belowConsec := 1,
                lastTriggerDetectionMs := t1, prevStartTriggered := false } =
      ({ s0 with baseline_cm := s0.baseline_cm, belowConsec := 2, aboveConsec := 0,
                 startArmed := false, lastTriggerDetectionMs := t2,
                 powerState := .AWAKE_RUNNING, prevStartTriggered := true,
                 startTimestamp := int32ofNat t2 }, true) := by
    rw [detStep_drop_armed_trigger t2 v2
      { s0 with baseline_cm := s0.baseline_cm, belowConsec := 1,
                lastTriggerDetectionMs := t1, prevStartTriggered := false }
      hv2 harm hcur2 hdrop2 rfl rfl, hbl2]
  rw [e2] at hds3
  have hA := dropPhase_disarmed ds
    { s0 with baseline_cm := s0.baseline_cm, belowConsec := 2, aboveConsec := 0,
              startArmed := false, lastTriggerDetectionMs := t2,
              powerState := .AWAKE_RUNNING, prevStartTriggered := true,
              startTimestamp := int32ofNat t2 } rfl hb0 hds3
  obtain ⟨hA1, hA2, hA3, hA4, hA5, hA6, hA7, hA8⟩ := hA
  refine ⟨?_, ?_, ?_, ?_⟩
  · simp only [edgeCount]
    rw [e1, e2]
    simpa using hA7
  · simp only [rearmCount]
    rw [e1, e2]
    simp [harm, hA8]
  · simp only [detRun]
    rw [e1, e2]
    exact hA1
  · simp only [detRun]
    rw [e1, e2]
    simpa using hA3

/-- C1: single-event property.  For any sample trace representing one
crossing — at least 2 consecutive drop samples (`drop >= MIN_DROP_CM`)
fed to an armed detector with `belowConsec = 0` and a learned baseline,
followed by at least 2 valid clear samples (`drop < MIN_DROP_CM`, judged
against the evolving detector state) that all occur at least
`TRIGGER_HOLD_MS` (500 ms) after the last qualifying drop — the firmware
fires exactly one start-event edge (`startTriggered` edge, lines 1288-1294
and 1326-1336) and performs exactly one re-arm (lines 1306-1317).  In
particular no second event fires within the arm cycle. -/
theorem C1_single_crossing_one_event_one_rearm
    (s0 : Fw) (t1 t2 : Nat) (v1 v2 : Int) (ds : List (Nat × Int))
    (u1 u2 : Nat) (w1 w2 : Int) (cs' : List (Nat × Int))
    (harm : s0.startArmed = true) (hbelow : s0.belowConsec = 0)
    (hbase : 0 < s0.baseline_cm)
    (hds : dropChain s0 ((t1, v1) :: (t2, v2) :: ds) = true)
    (hcs : clearChain (detRun s0 ((t1, v1) :: (t2, v2) :: ds))
      ((u1, w1) :: (u2, w2) :: cs') = true)
    (htime : ∀ p ∈ (u1, w1) :: (u2, w2) :: cs',
      (detRun s0 ((t1, v1) :: (t2, v2) :: ds)).lastTriggerDetectionMs
          + TRIGGER_HOLD_MS ≤ p.1 ∧
      p.1 < (detRun s0 ((t1, v1) :: (t2, v2) :: ds)).lastTriggerDetectionMs
          + 4294967296) :
    edgeCount s0 (((t1, v1) :: (t2, v2) :: ds) ++ (u1, w1) :: (u2, w2) :: cs') = 1 ∧
    rearmCount s0 (((t1, v1) :: (t2, v2) :: ds) ++ (u1, w1) :: (u2, w2) :: cs') = 1 := by
  obtain ⟨hE1, hR1, hArm, hAbove⟩ :=
    dropPhase_armed t1 t2 v1 v2 ds s0 harm hbelow hbase hds
  obtain ⟨hE2, hR2⟩ := clearPhase_full u1 u2 w1 w2 cs'
    (detRun s0 ((t1, v1) :: (t2, v2) :: ds)) hArm hAbove hcs htime
  rw [edgeCount_append, rearmCount_append, hE1, hR1, hE2, hR2]
  omega

/-- A concrete firmware state (armed detector, learned baseline of 183 cm)
used to instantiate the theorems that carry hypotheses. -/
def fw0 : Fw where
  baseline_cm := 183
  belowConsec := 0
  aboveConsec := 2
  startArmed := true
  lastTriggerDetectionMs := 0
  prevStartTriggered := false
  powerState := .AWAKE_STANDBY
  startTimestamp := -1
  lastSend := 0
  uwb_distance_cm := -1
  batteryPercent := 80
  MY_UWB_ADDRESS := "TAG0A1B2C".toList
  ANCHOR_UWB_NETWORK := []
  ANCHOR_UWB_ADDRESS := []
  isPaired := false
  nvs_uwb_network := none
  nvs_anchor_addr := none
  nvs_paired := false
  chStatusValue := []
  rxLine := []

/-- Witness for C1: the spec's own concrete scenario (baseline 183,
drops 170 and 160 at 40/60 ms, clears 182 and 183 at 560/580 ms). -/
theorem C1_single_crossing_one_event_one_rearm_witness :
    edgeCount fw0 ([((40 : Nat), (170 : Int)), (60, 160)] ++ [(560, 182), (580, 183)]) = 1 ∧
    rearmCount fw0 ([((40 : Nat), (170 : Int)), (60, 160)] ++ [(560, 182), (580, 183)]) = 1 :=
  C1_single_crossing_one_event_one_rearm fw0 40 60 170 160 [] 560 580 182 183 []
    (by decide) (by decide) (by decide) (by decide) (by decide)
    (by
      intro p hp
      simp only [List.mem_cons, List.not_mem_nil, or_false] at hp
      rcases hp with rfl | rfl <;> constructor <;> decide)

/-- C5 (amended): hold-window suppression as the code implements it.
While disarmed: (a) no step inside the hold window (less than
`TRIGGER_HOLD_MS` since `lastTriggerDetectionMs`, which every drop sample
refreshes) can re-arm; (b) a valid clear sample inside the window resets
`aboveConsec` to 0; (c) a step that does re-arm must be outside the hold
window, must take the clear branch, and must bring the `aboveConsec`
counter to `ABOVE_CONSEC_REQUIRED` — the counted clear samples need not be
consecutive, because a drop sample while disarmed refreshes the window but
does not reset `aboveConsec`. -/
theorem C5_hold_window_suppression (s : Fw) (now : Nat) (v : Int) :
    (s.startArmed = false →
      wrapSub32 now s.lastTriggerDetectionMs < TRIGGER_HOLD_MS →
      (detStep now v s).1.startArmed = false) ∧
    (s.startArmed = false →
      wrapSub32 now s.lastTriggerDetectionMs < TRIGGER_HOLD_MS →
      0 < v → dropOf s v < MIN_DROP_CM →
      (detStep now v s).1.aboveConsec = 0) ∧
    (s.startArmed = false → (detStep now v s).1.startArmed = true →
      ¬ wrapSub32 now s.lastTriggerDetectionMs < TRIGGER_HOLD_MS ∧
      ¬ (MIN_ABS_CM ≤ clampCm v ∧ MIN_DROP_CM ≤ dropOf s v) ∧
      ABOVE_CONSEC_REQUIRED ≤ (s.aboveConsec + 1) % 256) := by
  refine ⟨?_, ?_, ?_⟩
  · intro h1 hw
    unfold detStep tofDetect
    dsimp only
    split
    · simpa using h1
    · split
      · split
        · simp_all
        · simpa using h1
      · split
        · simp_all
        · split
          · simpa using h1
          · simp_all
  · intro h1 hw hv hdrop
    have hv' : ¬ v ≤ 0 := by omega
    have hcond : ¬ (MIN_ABS_CM ≤ clampCm v ∧ MIN_DROP_CM ≤ baselineOf s v - clampCm v) := by
      unfold dropOf at hdrop; omega
    unfold detStep tofDetect
    dsimp only
    rw [if_neg hv', if_neg hcond]
    simp_all
  · intro h1 h2
    unfold detStep tofDetect at h2
    dsimp only at h2
    split at h2
    · simp_all
    · split at h2
      · split at h2
        · simp_all
        · simp_all
      · split at h2
        · simp_all
        · split at h2
          · simp_all
          · split at h2
            · refine ⟨by assumption, ?_, by assumption⟩
              unfold dropOf
              assumption
            · simp_all

/-- A concrete disarmed detector state (post-trigger, hold window anchored
at 1000 ms, `aboveConsec` cleared). -/
def fwDisarmed : Fw :=
  { fw0 with startArmed := false, aboveConsec := 0,
             lastTriggerDetectionMs := 1000, powerState := .AWAKE_RUNNING }

/-- Counterexample for C5 as stated: on the trace clear(1500 ms),
drop(1520 ms), clear(2020 ms) the detector re-arms (the drop refreshed the
hold window but did not reset `aboveConsec`, and each clear sample lay
outside the then-current window), yet the trace never contains two
consecutive clear samples. -/
theorem C5_counterexample_nonconsecutive_rearm :
    rearmCount fwDisarmed [((1500 : Nat), (183 : Int)), (1520, 160), (2020, 183)] = 1 ∧
    twoConsecClear fwDisarmed [((1500 : Nat), (183 : Int)), (1520, 160), (2020, 183)] = false := by
  decide

/-- Witness for the amended C5 theorem at a concrete in-window step. -/
theorem C5_hold_window_suppression_witness :
    (detStep 1200 183 fwDisarmed).1.startArmed = false ∧
    (detStep 1200 183 fwDisarmed).1.aboveConsec = 0 ∧
    ¬ wrapSub32 2020 (detRun fwDisarmed [((1500 : Nat), (183 : Int)), (1520, 160)]).lastTriggerDetectionMs
        < TRIGGER_HOLD_MS :=
  ⟨(C5_hold_window_suppression fwDisarmed 1200 183).1 (by decide) (by decide),
   (C5_hold_window_suppression fwDisarmed 1200 183).2.1 (by decide) (by decide)
     (by decide) (by decide),
   ((C5_hold_window_suppression
       (detRun fwDisarmed [((1500 : Nat), (183 : Int)), (1520, 160)]) 2020 183).2.2
     (by decide) (by decide)).1⟩

/-- C6: while the detector is armed, a valid sample (`tof_cm > 0`) whose
drop is below `MIN_DROP_CM` decrements `belowConsec` by one toward zero
(line 1300, `if (belowConsec > 0) belowConsec--;`); the result is the
truncated predecessor, so the counter stops at zero and is never reset
outright. -/
theorem C6_belowConsec_decays (s : Fw) (now : Nat) (v : Int)
    (harm : s.startArmed = true) (hv : 0 < v)
    (hdrop : dropOf s v < MIN_DROP_CM) :
    (detStep now v s).1.belowConsec = s.belowConsec - 1 := by
  rw [detStep_clear_armed now v s hv harm hdrop]

/-- Witness for C6: an armed detector with `belowConsec = 2` sees a clear
sample and ends with `belowConsec = 1` (decay), not 0 (reset). -/
theorem C6_belowConsec_decays_witness :
    (detStep 100 183 { fw0 with belowConsec := 2 }).1.belowConsec = 1 :=
  C6_belowConsec_decays { fw0 with belowConsec := 2 } 100 183
    (by decide) (by decide) (by decide)

lemma detStep_baseline_eq (now : Nat) (v : Int) (s : Fw) :
    (detStep now v s).1.baseline_cm = (tofDetect now v s).1.baseline_cm := by
  unfold detStep
  dsimp only
  split <;> rfl

lemma tofDetect_baseline_le (now : Nat) (v : Int) (s : Fw)
    (h : s.baseline_cm ≤ BASELINE_MAX_CM) :
    (tofDetect now v s).1.baseline_cm ≤ BASELINE_MAX_CM := by
  have hb : baselineOf s v ≤ BASELINE_MAX_CM := by
    unfold baselineOf; split
    · exact clampCm_le v
    · exact h
  have hc := clampCm_le v
  unfold tofDetect
  dsimp only
  split
  · exact h
  · split
    · split
      · split
        · exact hb
        · exact hb
      · exact hb
    · split
      · exact hb
      · split
        · exact hb
        · split
          · exact hc
          · exact hb

/-- C7: baseline clamp invariant.  Starting from any state whose baseline
does not exceed `BASELINE_MAX_CM` (183; the boot value is 0), no sequence
of raw samples of any magnitude can push `baseline_cm` above
`BASELINE_MAX_CM`, because every sample is clamped before the baseline is
learned (line 1276) or re-learned on re-arm (line 1311). -/
theorem C7_baseline_never_exceeds_max (s : Fw) (tr : List (Nat × Int))
    (h : s.baseline_cm ≤ BASELINE_MAX_CM) :
    (detRun s tr).baseline_cm ≤ BASELINE_MAX_CM := by
  induction tr generalizing s with
  | nil => exact h
  | cons p rest ih =>
      simp only [detRun]
      exact ih _ (by rw [detStep_baseline_eq]; exact tofDetect_baseline_le p.1 p.2 s h)

/-- Witness for C7: huge raw samples (70000, then 400) still leave the
baseline at most 183. -/
theorem C7_baseline_never_exceeds_max_witness :
    (detRun { fw0 with baseline_cm := 0 }
      [((20 : Nat), (70000 : Int)), (40, 400), (60, 50)]).baseline_cm ≤ BASELINE_MAX_CM :=
  C7_baseline_never_exceeds_max { fw0 with baseline_cm := 0 } _ (by decide)

/-! ### Power-mode state machine (claim C2) -/

/-- The events that drive mode transitions in the firmware. -/
inductive Event : Type where
  | shortPress          -- button held < 5000 ms, then released
  | longPress           -- button held >= 5000 ms
  | startTrigger        -- StartDetector fires (line 1293)
  | rearmComplete       -- StartDetector re-arms (lines 1313-1315)
  | pairingEnterCmd     -- BLE control write "enter_pairing_mode"/"pairing" (line 577)
  | cfgWrite            -- BLE network-config write = pairing handshake completes (line 541)
  | unpairCmd           -- BLE control write "unpair" (lines 586-606)
  | chargerDisconnected -- `!isCharging` observed (lines 1186-1189)
deriving DecidableEq

/-- The mode transition function extracted from the firmware loop and the
BLE callbacks.  An event that cannot reach the firmware in a given mode is
a no-op there:
* `OTA_MODE` — the loop returns immediately (lines 1122-1128) and BLE is
  deinitialized when OTA starts (lines 902-905), so every event is a no-op;
* `DEEP_SLEEP` — the CPU is halted; waking goes through reset and is
  modelled by `bootDecision` below;
* `CHARGING` — the loop handles only the button and the charger sense
  (lines 1133-1201); the detector does not run and BLE was never started
  on a charging boot (`startBLE` is only called when the 3.3 V rail is on,
  lines 1062-1102);
* `PAIRING_MODE` — the loop returns before the button/detector section
  (lines 1206-1218), but the BLE callbacks are live;
* the awake modes run everything; the BLE callbacks assign the mode
  unconditionally (`powerState = PAIRING_MODE` at 577,
  `powerState = AWAKE_STANDBY` at 541), so `cfgWrite` moves even
  `AWAKE_RUNNING` to `AWAKE_STANDBY`. -/
def codeModeStep : PowerState → Event → PowerState
  | .DEEP_SLEEP, _ => .DEEP_SLEEP
  | .OTA_MODE, _ => .OTA_MODE
  | .CHARGING, .shortPress => .AWAKE_STANDBY       -- lines 1159-1180
  | .CHARGING, .longPress => .OTA_MODE             -- lines 1152-1158
  | .CHARGING, .chargerDisconnected => .DEEP_SLEEP -- lines 1186-1189
  | .CHARGING, _ => .CHARGING
  | .PAIRING_MODE, .pairingEnterCmd => .PAIRING_MODE
  | .PAIRING_MODE, .cfgWrite => .AWAKE_STANDBY     -- line 541
  | .PAIRING_MODE, _ => .PAIRING_MODE
  | .AWAKE_STANDBY, .shortPress => .DEEP_SLEEP     -- lines 1248-1253
  | .AWAKE_STANDBY, .longPress => .OTA_MODE        -- lines 1242-1247
  | .AWAKE_STANDBY, .startTrigger => .AWAKE_RUNNING -- line 1293
  | .AWAKE_STANDBY, .pairingEnterCmd => .PAIRING_MODE
  | .AWAKE_STANDBY, .cfgWrite => .AWAKE_STANDBY
  | .AWAKE_STANDBY, _ => .AWAKE_STANDBY
  | .AWAKE_RUNNING, .shortPress => .DEEP_SLEEP
  | .AWAKE_RUNNING, .longPress => .OTA_MODE
  | .AWAKE_RUNNING, .startTrigger => .AWAKE_RUNNING
  | .AWAKE_RUNNING, .rearmComplete => .AWAKE_STANDBY -- lines 1313-1315
  | .AWAKE_RUNNING, .pairingEnterCmd => .PAIRING_MODE
  | .AWAKE_RUNNING, .cfgWrite => .AWAKE_STANDBY    -- line 541, unconditional
  | .AWAKE_RUNNING, _ => .AWAKE_RUNNING

/-- The transition table written in spec section 4.2, for comparison with
`codeModeStep`.  This definition follows the spec's words, not the code:
the listed rows, with "any awake mode" read as Standby/Running/Pairing, and
every pair not listed in the table being a no-op ("unrecognized events in a
given mode are no-ops"). -/
def specModeTable : PowerState → Event → PowerState
  | .AWAKE_STANDBY, .shortPress => .DEEP_SLEEP
  | .AWAKE_RUNNING, .shortPress => .DEEP_SLEEP
  | .AWAKE_STANDBY, .longPress => .OTA_MODE
  | .AWAKE_RUNNING, .longPress => .OTA_MODE
  | .AWAKE_STANDBY, .startTrigger => .AWAKE_RUNNING
  | .AWAKE_RUNNING, .rearmComplete => .AWAKE_STANDBY
  | .CHARGING, .chargerDisconnected => .DEEP_SLEEP
  | .AWAKE_STANDBY, .pairingEnterCmd => .PAIRING_MODE
  | .AWAKE_RUNNING, .pairingEnterCmd => .PAIRING_MODE
  | .PAIRING_MODE, .pairingEnterCmd => .PAIRING_MODE
  | .PAIRING_MODE, .cfgWrite => .AWAKE_STANDBY
  | m, _ => m

/-- The spec table amended at the three cells the code forces:
a network-config write in `AWAKE_RUNNING` exits to `AWAKE_STANDBY`
(the callback assigns the mode unconditionally), and in `CHARGING` a short
press wakes to `AWAKE_STANDBY` and a long press starts OTA even while the
charger is connected. -/
def amendedModeTable (m : PowerState) (e : Event) : PowerState :=
  match m, e with
  | .AWAKE_RUNNING, .cfgWrite => .AWAKE_STANDBY
  | .CHARGING, .shortPress => .AWAKE_STANDBY
  | .CHARGING, .longPress => .OTA_MODE
  | _, _ => specModeTable m e

/-- Wake-up cause reported by `esp_sleep_get_wakeup_cause` (lines 970-972). -/
inductive WakeCause : Type where
  | button | charger | powerOn
deriving DecidableEq

/-- The boot-mode decision of `setup`, lines 1022-1059: if the button is
low at boot it is timed (>= 5000 ms selects OTA; a short press re-enters
standby only when the wake cause was the button, otherwise the device goes
back to sleep); otherwise charger wake or a live charger selects charging
mode, and anything else boots to standby. -/
def bootDecision (cause : WakeCause) (buttonLowAtBoot : Bool) (pressMs : Nat)
    (charging : Bool) : PowerState :=
  if buttonLowAtBoot then
    if 5000 ≤ pressMs then .OTA_MODE
    else match cause with
         | .button => .AWAKE_STANDBY
         | _ => .DEEP_SLEEP
  else if (match cause with | .charger => true | _ => false) || charging then
    .CHARGING
  else .AWAKE_STANDBY

/-- Counterexample for C2 as stated: a pairing-handshake-complete write
received while the device is in `AWAKE_RUNNING` moves it to
`AWAKE_STANDBY`, while the spec table (no row for this pair, hence a
no-op) keeps it in `AWAKE_RUNNING`. -/
theorem C2_counterexample_cfgWrite_in_running :
    codeModeStep .AWAKE_RUNNING .cfgWrite ≠ specModeTable .AWAKE_RUNNING .cfgWrite := by
  decide

lemma detStep_power_eq (now : Nat) (v : Int) (s : Fw) :
    (detStep now v s).1.powerState = (tofDetect now v s).1.powerState := by
  unfold detStep
  dsimp only
  split <;> rfl

lemma detStep_armed_eq (now : Nat) (v : Int) (s : Fw) :
    (detStep now v s).1.startArmed = (tofDetect now v s).1.startArmed := by
  unfold detStep
  dsimp only
  split <;> rfl

lemma detStep_snd_eq (now : Nat) (v : Int) (s : Fw) :
    (detStep now v s).2 = ((tofDetect now v s).2 && !s.prevStartTriggered) := rfl

lemma tofDetect_trigger_power (now : Nat) (v : Int) (s : Fw)
    (h : (tofDetect now v s).2 = true) :
    (tofDetect now v s).1.powerState = .AWAKE_RUNNING := by
  unfold tofDetect at h ⊢
  dsimp only at h ⊢
  split_ifs at h ⊢
  simp_all

lemma tofDetect_rearm_power (now : Nat) (v : Int) (s : Fw)
    (h1 : s.startArmed = false) (h2 : (tofDetect now v s).1.startArmed = true) :
    (tofDetect now v s).1.powerState =
      (if s.powerState = .AWAKE_RUNNING then .AWAKE_STANDBY else s.powerState) := by
  unfold tofDetect at h2 ⊢
  dsimp only at h2 ⊢
  split_ifs at h2 ⊢ <;> simp_all

/-- C2 (amended): the mode machine is a total deterministic function over
(mode, event); it agrees with the spec-4.2 table everywhere except the
three cells recorded in `amendedModeTable` (network-config write while
`AWAKE_RUNNING` exits to `AWAKE_STANDBY`; in `CHARGING` a short press
wakes to `AWAKE_STANDBY` and a long press starts OTA regardless of the
charger).  The detector's own mode writes agree with the table: a trigger
step always sets `AWAKE_RUNNING`, and a re-arm step applies exactly
`codeModeStep _ rearmComplete`.  The boot decision sends a short button
wake to Standby or Charging, a charger wake (button up) to Charging, and a
long press at boot to OTA. -/
theorem C2_mode_transition_totality_amended :
    (∀ (m : PowerState) (e : Event), codeModeStep m e = amendedModeTable m e) ∧
    (∀ (s : Fw) (now : Nat) (v : Int), (detStep now v s).2 = true →
      (detStep now v s).1.powerState = PowerState.AWAKE_RUNNING) ∧
    (∀ (s : Fw) (now : Nat) (v : Int), s.startArmed = false →
      (detStep now v s).1.startArmed = true →
      (detStep now v s).1.powerState = codeModeStep s.powerState .rearmComplete) ∧
    (∀ (b : Bool) (d : Nat) (c : Bool), d < 5000 →
      bootDecision .button b d c = .AWAKE_STANDBY ∨
      bootDecision .button b d c = .CHARGING) ∧
    (∀ (d : Nat) (c : Bool), bootDecision .charger false d c = .CHARGING) ∧
    (∀ (cause : WakeCause) (d : Nat) (c : Bool), 5000 ≤ d →
      bootDecision cause true d c = .OTA_MODE) := by
  refine ⟨?_, ?_, ?_, ?_, ?_, ?_⟩
  · intro m e
    cases m <;> cases e <;> rfl
  · intro s now v h
    rw [detStep_snd_eq, Bool.and_eq_true] at h
    rw [detStep_power_eq]
    exact tofDetect_trigger_power now v s h.1
  · intro s now v h1 h2
    rw [detStep_armed_eq] at h2
    rw [detStep_power_eq, tofDetect_rearm_power now v s h1 h2]
    cases s.powerState <;> rfl
  · intro b d c h
    unfold bootDecision
    rcases b with _ | _
    · simp only [Bool.false_eq_true, if_false]
      split <;> simp
    · simp [Nat.not_le.mpr h]
  · intro d c
    unfold bootDecision
    simp
  · intro cause d c h
    unfold bootDecision
    simp [h]

/-- Witness for the amended C2 theorem at concrete inputs. -/
theorem C2_mode_transition_totality_amended_witness :
    codeModeStep .AWAKE_STANDBY .pairingEnterCmd
        = amendedModeTable .AWAKE_STANDBY .pairingEnterCmd ∧
    (detStep 60 160 (detRun fw0 [((40 : Nat), (170 : Int))])).1.powerState
        = PowerState.AWAKE_RUNNING ∧
    bootDecision .charger false 0 true = .CHARGING ∧
    (bootDecision .button true 700 false = .AWAKE_STANDBY ∨
      bootDecision .button true 700 false = .CHARGING) ∧
    bootDecision .powerOn true 6000 false = .OTA_MODE :=
  ⟨C2_mode_transition_totality_amended.1 .AWAKE_STANDBY .pairingEnterCmd,
   C2_mode_transition_totality_amended.2.1 (detRun fw0 [((40 : Nat), (170 : Int))])
     60 160 (by decide),
   C2_mode_transition_totality_amended.2.2.2.2.1 0 true,
   C2_mode_transition_totality_amended.2.2.2.1 true 700 false (by omega),
   C2_mode_transition_totality_amended.2.2.2.2.2 .powerOn 6000 false (by omega)⟩

/-! ### RadioLink: `sendAT` line scanning (claims C8, C9) -/

/-- Whitespace as removed by Arduino `String::trim` (C `isspace`). -/
def isWS (c : Char) : Bool :=
  c = ' ' || c = '\t' || c = '\n' || c = '\x0b' || c = '\x0c' || c = '\r'

/-- Arduino `String::trim`: strip leading and trailing whitespace. -/
def trimWS (l : List Char) : List Char :=
  ((l.dropWhile isWS).reverse.dropWhile isWS).reverse

/-- Arduino `String::startsWith` on character lists (pattern, string). -/
def startsWithTok : List Char → List Char → Bool
  | [], _ => true
  | _ :: _, [] => false
  | a :: as, b :: bs => a = b && startsWithTok as bs

/-- The per-line decision of `sendAT` (firmware lines 733-751): a line
starting with `+READY` succeeds unconditionally; with `waitForOK`, `+OK`
succeeds and `+ERR` fails; without `waitForOK` any completed line succeeds;
otherwise the line is discarded and scanning continues. -/
def lineVerdict (line : List Char) (waitForOK : Bool) : Option Bool :=
  if startsWithTok ("+READY".toList) line then some true
  else if waitForOK then
    if startsWithTok ("+OK".toList) line then some true
    else if startsWithTok ("+ERR".toList) line then some false
    else none
  else some true

/-- The byte-scanning loop of `sendAT` (firmware lines 729-753) over the
bytes available before the timeout: `\n` completes a line, which is trimmed
and judged by `lineVerdict`; `\r` is dropped; every other byte is appended
to `line` with no length bound.  Returns the verdict (`none` = timeout)
and the line buffer still accumulated when the bytes run out. -/
def sendATScan (waitForOK : Bool) : List Char → List Char → Option Bool × List Char
  | [], line => (none, line)
  | c :: rest, line =>
    if c = '\n' then
      match lineVerdict (trimWS line) waitForOK with
      | some b => (some b, [])
      | none => sendATScan waitForOK rest []
    else if c = '\r' then sendATScan waitForOK rest line
    else sendATScan waitForOK rest (line ++ [c])

/-- The claim of C8 about `sendAT`: the response-line buffer it accumulates
is bounded by some fixed bound for every inbound byte stream. -/
def sendATBufferBounded : Prop :=
  ∃ B, ∀ bytes : List Char, (sendATScan true bytes []).2.length ≤ B

lemma sendATScan_replicate (wOK : Bool) (n : Nat) : ∀ line,
    sendATScan wOK (List.replicate n 'a') line = (none, line ++ List.replicate n 'a') := by
  induction n with
  | zero => intro line; simp [sendATScan]
  | succ n ih =>
      intro line
      rw [List.replicate_succ]
      show sendATScan wOK ('a' :: List.replicate n 'a') line = _
      rw [sendATScan]
      rw [if_neg (by decide), if_neg (by decide), ih]
      simp

/-- Counterexample for C8 as stated: `sendAT`'s line buffer is unbounded —
for every candidate bound there is a newline-free byte stream that makes
the buffer longer (the buffer grows by one per byte, firmware line 750,
with no truncation). -/
theorem C8_counterexample_sendAT_unbounded : ¬ sendATBufferBounded := by
  rintro ⟨B, hB⟩
  have h := hB (List.replicate (B + 1) 'a')
  rw [sendATScan_replicate] at h
  simp at h

lemma sendATScan_line (wOK : Bool) (line : List Char) :
    ∀ (acc rest : List Char), Char.ofNat 10 ∉ line → Char.ofNat 13 ∉ line →
    sendATScan wOK (line ++ Char.ofNat 10 :: rest) acc =
      match lineVerdict (trimWS (acc ++ line)) wOK with
      | some b => (some b, [])
      | none => sendATScan wOK rest [] := by
  induction line with
  | nil =>
      intro acc rest _ _
      simp only [List.nil_append, List.append_nil]
      rw [sendATScan, if_pos rfl]
  | cons c cl ih =>
      intro acc rest h1 h2
      simp only [List.mem_cons, not_or] at h1 h2
      simp only [List.cons_append]
      rw [sendATScan, if_neg (fun h => h1.1 h.symm), if_neg (fun h => h2.1 h.symm)]
      rw [ih (acc ++ [c]) rest h1.2 h2.2]
      simp

/-- C9: a response line beginning with `+READY` resolves a pending `sendAT`
call as success as soon as its terminating newline arrives, for both values
of `waitForOK` — in particular with `waitForOK = true` and no `+OK` line
(the `+READY` check at line 739 precedes the `waitForOK` handling). -/
theorem C9_ready_line_resolves_sendAT (wOK : Bool) (line rest : List Char)
    (h1 : Char.ofNat 10 ∉ line) (h2 : Char.ofNat 13 ∉ line)
    (h3 : startsWithTok ("+READY".toList) (trimWS line) = true) :
    (sendATScan wOK (line ++ Char.ofNat 10 :: rest) []).1 = some true := by
  rw [sendATScan_line wOK line [] rest h1 h2]
  simp only [List.nil_append]
  rw [lineVerdict, if_pos h3]

/-- Witness for C9: the exact stream `+READY\r\n` with `waitForOK = true`. -/
theorem C9_ready_line_resolves_sendAT_witness :
    (sendATScan true ("+READY".toList ++ Char.ofNat 10 :: []) []).1 = some true :=
  C9_ready_line_resolves_sendAT true ("+READY".toList) []
    (by decide) (by decide) (by decide)

/-! ### `pollUWB`: receive-side line parsing (claims C8, C3) -/

/-- `std::string::find` / Arduino `String::indexOf` for a pattern starting
at `start`: index of the first occurrence, `none` when absent (`npos`). -/
def findSubAux : List Char → List Char → Nat → Option Nat
  | [], pat, i => if pat.isEmpty then some i else none
  | a :: as, pat, i =>
      if startsWithTok pat (a :: as) then some i else findSubAux as pat (i + 1)

def findSubFrom (v pat : List Char) (start : Nat) : Option Nat :=
  findSubAux (v.drop start) pat start

/-- `v.find(pat) != npos`. -/
def hasSub (v pat : List Char) : Bool := (findSubFrom v pat 0).isSome

/-- The `+TAG_RCV=` distance parse of firmware lines 863-878: locate the
marker, locate `" cm"` after it, take the maximal digit run ending right
before it, convert with Arduino `toInt` (digit fold; empty gives 0), and
accept only values in (0, 65535). -/
def parseTagRcv (line : List Char) (dcur : Int) : Int :=
  match findSubFrom line ("+TAG_RCV=".toList) 0 with
  | none => dcur
  | some idx =>
    match findSubFrom line (" cm".toList) idx with
    | none => dcur
    | some cmPos =>
      if idx < cmPos then
        let digits := ((line.take cmPos).reverse.takeWhile (fun c => c.isDigit)).reverse
        let val : Nat := digits.foldl (fun acc c => acc * 10 + (c.toNat - 48)) 0
        if 0 < val ∧ val < 65535 then (val : Int) else dcur
      else dcur

/-- One byte of the response-parsing loop of `pollUWB`
(firmware lines 856-884): CR/LF completes and parses a non-empty line and
clears the buffer; any other byte is appended only while the buffer is
shorter than 120 characters (line 882). -/
def pollRxByte (s : Fw) (c : Char) : Fw :=
  if c = Char.ofNat 13 ∨ c = Char.ofNat 10 then
    if 0 < s.rxLine.length then
      { s with uwb_distance_cm := parseTagRcv s.rxLine s.uwb_distance_cm, rxLine := [] }
    else { s with rxLine := [] }
  else
    if s.rxLine.length < 120 then { s with rxLine := s.rxLine ++ [c] } else s

/-- Feed a whole inbound byte list to the `pollUWB` response parser. -/
def pollRxRun (s : Fw) : List Char → Fw
  | [] => s
  | c :: rest => pollRxRun (pollRxByte s c) rest

/-- C8 (amended): bounded buffering holds for `pollUWB`'s receive loop —
its line buffer never grows beyond 120 characters (bytes beyond that are
dropped, line 882) — but not for `sendAT`, whose response-line buffer grows
without bound (line 750 appends unconditionally): for every candidate
bound some newline-free stream exceeds it. -/
theorem C8_bounded_buffering_amended :
    (∀ (s : Fw) (bytes : List Char), s.rxLine.length ≤ 120 →
      (pollRxRun s bytes).rxLine.length ≤ 120) ∧
    (∀ B : Nat, ∃ bytes : List Char, B < (sendATScan true bytes []).2.length) := by
  constructor
  · intro s bytes
    induction bytes generalizing s with
    | nil => intro h; exact h
    | cons c rest ih =>
        intro h
        refine ih (pollRxByte s c) ?_
        unfold pollRxByte
        split
        · split <;> simp
        · split
          · simp
            omega
          · exact h
  · intro B
    refine ⟨List.replicate (B + 1) 'a', ?_⟩
    rw [sendATScan_replicate]
    simp

/-- Witness for the amended C8 theorem: 130 non-newline bytes leave the
`pollUWB` buffer at its 120-character cap. -/
theorem C8_bounded_buffering_amended_witness :
    (pollRxRun fw0 (List.replicate 130 'x')).rxLine.length ≤ 120 :=
  C8_bounded_buffering_amended.1 fw0 (List.replicate 130 'x') (by decide)

/-! ### `pollUWB`: telemetry frame assembly (claim C3) -/

/-- The telemetry data packet of firmware lines 826-852, hex-encoded on the
wire as `[battery:1][distance:2 BE][startAge:4 BE]`.  `startEventAgeMs`
holds the `int32_t` value whose bit pattern (`(uint32_t)startAge`) is
encoded with `%08X`. -/
structure Frame : Type where
  batteryByte : Nat
  distanceField : Nat
  startEventAgeMs : Int
deriving Repr, DecidableEq

/-- Frame assembly, firmware lines 824-852: latch `lastSend`, encode the
battery byte, the distance (sentinel `0xFFFF` unless in (0, 65535)), and
the start age — `-1` unless a `startTimestamp >= 0` is pending, in which
case the age is `(int32_t)(now - (uint32_t)startTimestamp)` and the pending
timestamp is cleared in the same step (lines 840-845). -/
def assembleFrame (now : Nat) (s : Fw) : Frame × Fw :=
  let dist : Nat := if 0 < s.uwb_distance_cm ∧ s.uwb_distance_cm < 65535
                    then s.uwb_distance_cm.toNat else 65535
  let ageTs : Int × Int :=
    if 0 ≤ s.startTimestamp then
      (int32ofNat (wrapSub32 now (uint32ofInt s.startTimestamp)), -1)
    else (-1, s.startTimestamp)
  (⟨s.batteryPercent % 256, dist, ageTs.1⟩,
   { s with startTimestamp := ageTs.2, lastSend := now })

/-- The send gate of `pollUWB`, firmware line 823: a frame is assembled and
sent only while paired and at the 300 ms cadence. -/
def pollUWBsend (now : Nat) (s : Fw) : Option Frame × Fw :=
  if s.isPaired = true ∧ 300 ≤ wrapSub32 now s.lastSend then
    ((assembleFrame now s).1, (assembleFrame now s).2)
  else (none, s)

/-- C3: telemetry consumption exactly once.  When a pending start timestamp
is set, the next frame assembled by `pollUWB` carries
`startEventAgeMs = now - startTimestamp >= 0`, the pending timestamp is
cleared in the same assembly step, and the frame assembled immediately
after that carries `startEventAgeMs = -1` even though no further event
occurred. -/
theorem C3_start_age_consumed_exactly_once (s : Fw) (now1 now2 : Nat)
    (f1 f2 : Frame) (s1 s2 : Fw)
    (hpend : 0 ≤ s.startTimestamp)
    (hts : s.startTimestamp < 2147483648)
    (hlo : s.startTimestamp.toNat ≤ now1)
    (hhi : now1 < s.startTimestamp.toNat + 2147483648)
    (hnow : now1 < 4294967296)
    (h1 : pollUWBsend now1 s = (some f1, s1))
    (h2 : pollUWBsend now2 s1 = (some f2, s2)) :
    f1.startEventAgeMs = (now1 : Int) - s.startTimestamp ∧
    0 ≤ f1.startEventAgeMs ∧
    s1.startTimestamp = -1 ∧
    f2.startEventAgeMs = -1 := by
  unfold pollUWBsend at h1
  split at h1
  case isFalse => simp at h1
  have ht : uint32ofInt s.startTimestamp = s.startTimestamp.toNat := by
    unfold uint32ofInt
    omega
  have hw : wrapSub32 now1 s.startTimestamp.toNat = now1 - s.startTimestamp.toNat :=
    wrapSub32_eq hlo (by omega)
  have hage : int32ofNat (now1 - s.startTimestamp.toNat)
      = (now1 : Int) - s.startTimestamp := by
    unfold int32ofNat
    rw [if_pos (by omega)]
    omega
  unfold assembleFrame at h1
  dsimp only at h1
  rw [if_pos hpend] at h1
  simp only [Prod.mk.injEq, Option.some.injEq] at h1
  obtain ⟨hf1, hs1⟩ := h1
  subst hf1
  subst hs1
  refine ⟨?_, ?_, rfl, ?_⟩
  · dsimp only
    rw [ht, hw, hage]
  · dsimp only
    rw [ht, hw, hage]
    omega
  · unfold pollUWBsend at h2
    split at h2
    case isFalse => simp at h2
    unfold assembleFrame at h2
    dsimp only at h2
    rw [if_neg (show ¬ ((0 : Int) ≤ -1) by norm_num)] at h2
    simp only [Prod.mk.injEq, Option.some.injEq] at h2
    obtain ⟨hf2, _⟩ := h2
    subst hf2
    rfl

/-- A concrete paired state with a pending start event from t = 1000 ms. -/
def fwPending : Fw :=
  { fw0 with isPaired := true, startTimestamp := 1000, uwb_distance_cm := 250 }

/-- Witness for C3: the frame assembled at 1300 ms carries age 300 and
clears the pending timestamp; the next frame at 1600 ms carries -1. -/
theorem C3_start_age_consumed_exactly_once_witness :
    (⟨80, 250, 300⟩ : Frame).startEventAgeMs = (1300 : Int) - fwPending.startTimestamp ∧
    0 ≤ (⟨80, 250, 300⟩ : Frame).startEventAgeMs ∧
    ({ fwPending with startTimestamp := -1, lastSend := 1300 } : Fw).startTimestamp = -1 ∧
    (⟨80, 250, -1⟩ : Frame).startEventAgeMs = -1 :=
  C3_start_age_consumed_exactly_once fwPending 1300 1600
    ⟨80, 250, 300⟩ ⟨80, 250, -1⟩
    { fwPending with startTimestamp := -1, lastSend := 1300 }
    { fwPending with startTimestamp := -1, lastSend := 1600 }
    (by decide) (by decide) (by decide) (by decide) (by decide)
    (by decide) (by decide)

/-! ### BLE pairing handlers (claims C4, C10) -/

/-- `strncpy(dst, src, 15)` into a zeroed `char[16]`: at most 15
characters, stopping at an embedded NUL. -/
def strncpyTo15 (src : List Char) : List Char :=
  (src.takeWhile (fun c => c ≠ Char.ofNat 0)).take 15

/-- The quoted-value extraction of `NetworkCfgCB::handleWrite`
(firmware lines 492-517): find the key, then the next `:`, then the next
two `"` characters, and take the text between them.  Any missing piece
(`npos` at any stage) yields `none` and leaves the field untouched. -/
def extractQuoted (v key : List Char) : Option (List Char) :=
  match findSubFrom v key 0 with
  | none => none
  | some keyPos =>
    match findSubFrom v (":".toList) keyPos with
    | none => none
    | some colonPos =>
      match findSubFrom v ("\"".toList) colonPos with
      | none => none
      | some fq =>
        match findSubFrom v ("\"".toList) (fq + 1) with
        | none => none
        | some sq => some ((v.drop (fq + 1)).take (sq - fq - 1))

def netIdKey : List Char := "\"network_id\"".toList
def anchorAddrKey : List Char := "\"anchor_address\"".toList

/-- The fire-and-forget configuration sequence of `configureUWB`
(firmware lines 783-807). -/
def configureUWBCmds (network myAddr : List Char) : List (List Char) :=
  ["AT".toList, "AT+MODE=0".toList,
   "AT+NETWORKID=".toList ++ network,
   "AT+ADDRESS=".toList ++ myAddr,
   "AT+RSSI=1".toList]

/-- The status JSON written after pairing (firmware lines 545-549),
truncated to the 256-byte `snprintf` buffer. -/
def pairedStatusJson (network anchor : List Char) : List Char :=
  ("\x7b\"paired\":true,\"network\":\"".toList ++ network
    ++ "\",\"anchor\":\"".toList ++ anchor ++ "\"\x7d".toList).take 255

/-- `NetworkCfgCB::handleWrite` (firmware lines 482-554): extract the two
fields independently (a missing field keeps the old in-memory value),
persist both fields and `paired = true` to NVS, set `isPaired`, run the
UWB configuration sequence (returned as the command list), leave pairing
mode for `AWAKE_STANDBY`, and set the status characteristic. -/
def networkCfgWrite (v : List Char) (s : Fw) : Fw × List (List Char) :=
  let net := match extractQuoted v netIdKey with
             | some x => strncpyTo15 x
             | none => s.ANCHOR_UWB_NETWORK
  let addr := match extractQuoted v anchorAddrKey with
              | some x => strncpyTo15 x
              | none => s.ANCHOR_UWB_ADDRESS
  ({ s with ANCHOR_UWB_NETWORK := net, ANCHOR_UWB_ADDRESS := addr,
            nvs_uwb_network := some net, nvs_anchor_addr := some addr,
            nvs_paired := true, isPaired := true,
            powerState := .AWAKE_STANDBY,
            chStatusValue := pairedStatusJson net addr },
   configureUWBCmds net s.MY_UWB_ADDRESS)

def enterPairingPat1 : List Char := "\"enter_pairing_mode\":true".toList
def enterPairingPat2 : List Char := "\"pairing\":true".toList
def unpairPat : List Char := "\"unpair\":true".toList
def ackPairing : List Char := "\x7b\"ack\":\"entering_pairing_mode\"\x7d".toList
def ackUnpaired : List Char := "\x7b\"ack\":\"unpaired\"\x7d".toList

/-- `CtrlCB::handleWrite` (firmware lines 567-607): an enter-pairing
payload switches to `PAIRING_MODE`; otherwise an unpair payload clears the
two in-memory peer strings, removes the two persisted keys, stores
`paired = false`, and sets the status ack.  The second component is the
list of commands sent to the UWB serial port — always empty here. -/
def ctrlWrite (v : List Char) (s : Fw) : Fw × List (List Char) :=
  if hasSub v enterPairingPat1 || hasSub v enterPairingPat2 then
    ({ s with powerState := .PAIRING_MODE, chStatusValue := ackPairing }, [])
  else if hasSub v unpairPat then
    ({ s with ANCHOR_UWB_NETWORK := [], ANCHOR_UWB_ADDRESS := [],
              isPaired := false, nvs_uwb_network := none, nvs_anchor_addr := none,
              nvs_paired := false, chStatusValue := ackUnpaired }, [])
  else (s, [])

/-- C4: pairing write semantics.  Field extraction is independent (an
absent field leaves the in-memory value unchanged; a present field
replaces it, truncated to 15 characters), and regardless of how many
fields were found the handler persists both pairing fields, sets
`paired = true` in memory and NVS, emits the UWB configuration sequence,
sets the status payload, and moves the mode to `AWAKE_STANDBY`. -/
theorem C4_network_cfg_write_semantics (v : List Char) (s : Fw) :
    (extractQuoted v netIdKey = none →
      (networkCfgWrite v s).1.ANCHOR_UWB_NETWORK = s.ANCHOR_UWB_NETWORK) ∧
    (∀ x, extractQuoted v netIdKey = some x →
      (networkCfgWrite v s).1.ANCHOR_UWB_NETWORK = strncpyTo15 x) ∧
    (extractQuoted v anchorAddrKey = none →
      (networkCfgWrite v s).1.ANCHOR_UWB_ADDRESS = s.ANCHOR_UWB_ADDRESS) ∧
    (∀ x, extractQuoted v anchorAddrKey = some x →
      (networkCfgWrite v s).1.ANCHOR_UWB_ADDRESS = strncpyTo15 x) ∧
    (networkCfgWrite v s).1.isPaired = true ∧
    (networkCfgWrite v s).1.nvs_paired = true ∧
    (networkCfgWrite v s).1.nvs_uwb_network
        = some (networkCfgWrite v s).1.ANCHOR_UWB_NETWORK ∧
    (networkCfgWrite v s).1.nvs_anchor_addr
        = some (networkCfgWrite v s).1.ANCHOR_UWB_ADDRESS ∧
    (networkCfgWrite v s).1.powerState = PowerState.AWAKE_STANDBY ∧
    (networkCfgWrite v s).1.chStatusValue
        = pairedStatusJson (networkCfgWrite v s).1.ANCHOR_UWB_NETWORK
            (networkCfgWrite v s).1.ANCHOR_UWB_ADDRESS ∧
    (networkCfgWrite v s).2
        = configureUWBCmds (networkCfgWrite v s).1.ANCHOR_UWB_NETWORK
            s.MY_UWB_ADDRESS := by
  unfold networkCfgWrite
  rcases h1 : extractQuoted v netIdKey with _ | x <;>
    rcases h2 : extractQuoted v anchorAddrKey with _ | y <;>
      simp [h1, h2]

def plC4 : List Char := "\"network_id\":\"NET1\"".toList

/-- Witness for C4: a payload carrying only `network_id` updates the
network, leaves the anchor address unchanged, and still marks paired. -/
theorem C4_network_cfg_write_semantics_witness :
    extractQuoted plC4 netIdKey = some ("NET1".toList) ∧
    extractQuoted plC4 anchorAddrKey = none ∧
    (networkCfgWrite plC4 fw0).1.ANCHOR_UWB_NETWORK = strncpyTo15 ("NET1".toList) ∧
    (networkCfgWrite plC4 fw0).1.ANCHOR_UWB_ADDRESS = fw0.ANCHOR_UWB_ADDRESS ∧
    (networkCfgWrite plC4 fw0).1.isPaired = true :=
  ⟨by decide, by decide,
   (C4_network_cfg_write_semantics plC4 fw0).2.1 ("NET1".toList) (by decide),
   (C4_network_cfg_write_semantics plC4 fw0).2.2.1 (by decide),
   (C4_network_cfg_write_semantics plC4 fw0).2.2.2.2.1⟩

/-- C10: the unpair command mutates only pairing state — it empties the
two in-memory peer strings, removes the two persisted keys, stores
`paired = false`, and sets the status ack — while the power mode, all
detector state, the pending start timestamp, and the last-known UWB
distance are unchanged, and no command at all is sent to the radio
module. -/
theorem C10_unpair_touches_only_pairing_state (v : List Char) (s : Fw)
    (h1 : hasSub v enterPairingPat1 = false)
    (h2 : hasSub v enterPairingPat2 = false)
    (h3 : hasSub v unpairPat = true) :
    (ctrlWrite v s).1.ANCHOR_UWB_NETWORK = [] ∧
    (ctrlWrite v s).1.ANCHOR_UWB_ADDRESS = [] ∧
    (ctrlWrite v s).1.isPaired = false ∧
    (ctrlWrite v s).1.nvs_uwb_network = none ∧
    (ctrlWrite v s).1.nvs_anchor_addr = none ∧
    (ctrlWrite v s).1.nvs_paired = false ∧
    (ctrlWrite v s).1.chStatusValue = ackUnpaired ∧
    (ctrlWrite v s).1.powerState = s.powerState ∧
    (ctrlWrite v s).1.startArmed = s.startArmed ∧
    (ctrlWrite v s).1.baseline_cm = s.baseline_cm ∧
    (ctrlWrite v s).1.belowConsec = s.belowConsec ∧
    (ctrlWrite v s).1.aboveConsec = s.aboveConsec ∧
    (ctrlWrite v s).1.lastTriggerDetectionMs = s.lastTriggerDetectionMs ∧
    (ctrlWrite v s).1.startTimestamp = s.startTimestamp ∧
    (ctrlWrite v s).1.uwb_distance_cm = s.uwb_distance_cm ∧
    (ctrlWrite v s).2 = [] := by
  unfold ctrlWrite
  simp [h1, h2, h3]

def plC10 : List Char := "\"unpair\":true".toList

/-- Witness for C10 on the literal unpair payload. -/
theorem C10_unpair_touches_only_pairing_state_witness :
    (ctrlWrite plC10 fwPending).1.isPaired = false ∧
    (ctrlWrite plC10 fwPending).1.powerState = fwPending.powerState ∧
    (ctrlWrite plC10 fwPending).1.startArmed = fwPending.startArmed ∧
    (ctrlWrite plC10 fwPending).2 = [] :=
  ⟨((C10_unpair_touches_only_pairing_state plC10 fwPending
      (by decide) (by decide) (by decide)).2.2.1),
   ((C10_unpair_touches_only_pairing_state plC10 fwPending
      (by decide) (by decide) (by decide)).2.2.2.2.2.2.2.1),
   ((C10_unpair_touches_only_pairing_state plC10 fwPending
      (by decide) (by decide) (by decide)).2.2.2.2.2.2.2.2.1),
   ((C10_unpair_touches_only_pairing_state plC10 fwPending
      (by decide) (by decide) (by decide)).2.2.2.2.2.2.2.2.2.2.2.2.2.2.2)⟩
